import Mathlib

/-!
Shallow embedding of the VeoVerse video-generation client
(`config.py`, `utils.py`, `veo_generator.py`, `veo_extension.py`).

Python values are modelled as follows: optional arguments become `Option`
types, Python truthiness of a string is `≠ ""` and of an integer is `≠ 0`,
exceptions become `Except Err`, and the remote GenAI client (submit, status
refresh, download) is an external collaborator modelled as an oracle
parameter.  Machine-dependent inputs (current timestamp, md5 digest) are
passed in as parameters.
-/

deriving instance DecidableEq for Except

namespace VeoVerse

/-! ## config.py -/

def DEFAULT_MODEL : String := "veo-3.1-generate-preview"

def DEFAULT_ASPECT_RATIO : String := "16:9"

def DEFAULT_RESOLUTION : String := "720p"

def DEFAULT_DURATION_SECONDS : Int := 8

def SUPPORTED_MODELS : List String :=
  ["veo-3.1-generate-preview", "veo-3.1-fast-generate-preview",
   "veo-3.0-generate-001", "veo-3.0-fast-generate-001", "veo-2.0-generate-001"]

def SUPPORTED_ASPECT_RATIOS : List String := ["16:9", "9:16"]

def SUPPORTED_RESOLUTIONS : List String := ["720p", "1080p"]

def SUPPORTED_DURATIONS : List Int := [4, 6, 8]

def POLL_INTERVAL_SECONDS : Nat := 10

def MAX_POLL_ATTEMPTS : Nat := 180

def EXTENSION_DURATION : Nat := 7

def MAX_EXTENSIONS : Nat := 20

/-- `OUTPUT_DIR = Path("output")`, as a list of path components. -/
def OUTPUT_DIR : List String := ["output"]

/-! ## Python-shaped helpers -/

/-- Python truthiness of an optional string: `None` and `""` are falsy. -/
def pyTruthyStr (o : Option String) : Bool := o.getD "" != ""

/-- Python truthiness of an optional integer: `None` and `0` are falsy. -/
def pyTruthyInt (o : Option Int) : Bool := o.getD 0 != 0

/-- Python `x or default` on an optional string (falsy values replaced). -/
def pyOrStr (o : Option String) (d : String) : String :=
  if pyTruthyStr o then o.getD "" else d

/-- Python `x or default` on an optional integer (falsy values replaced). -/
def pyOrInt (o : Option Int) (d : Int) : Int :=
  if pyTruthyInt o then o.getD 0 else d

/-- Error taxonomy: Python `ValueError` ↦ `invalidParameter`,
`TimeoutError` ↦ `timeout`, `RuntimeError` ↦ `remoteError`,
`IndexError` ↦ `indexError`. -/
inductive Err where
  | invalidParameter (msg : String)
  | timeout
  | remoteError (msg : String)
  | indexError (msg : String)
deriving DecidableEq, Repr

def Err.isRemoteError : Err → Bool
  | .remoteError _ => true
  | _ => false

/-! ## utils.validate_parameters -/

def modelWarning (m : String) : String :=
  "Warning: Model " ++ m ++ " is not in the known list of supported models."

def aspectWarning : String :=
  "Warning: 1080p with 9:16 aspect ratio may have limited support"

/-- `utils.validate_parameters` (utils.py lines 195-238).  Fatal rules raise
`ValueError` (here `.error`); soft advisories are printed (here collected in
the returned warning list). -/
def validate_parameters (aspect_ratio : Option String) (resolution : Option String)
    (duration_seconds : Option Int) (model : Option String) :
    Except String (List String) :=
  if pyTruthyStr aspect_ratio ∧ aspect_ratio.getD "" ∉ SUPPORTED_ASPECT_RATIOS then
    .error "Invalid aspect_ratio"
  else if pyTruthyStr resolution ∧ resolution.getD "" ∉ SUPPORTED_RESOLUTIONS then
    .error "Invalid resolution"
  else if pyTruthyInt duration_seconds ∧ duration_seconds.getD 0 ∉ SUPPORTED_DURATIONS then
    .error "Invalid duration_seconds"
  else
    let warnings :=
      if pyTruthyStr model ∧ model.getD "" ∉ SUPPORTED_MODELS then
        [modelWarning (model.getD "")]
      else []
    if resolution = some "1080p" ∧ pyTruthyInt duration_seconds ∧ duration_seconds.getD 0 ≠ 8 then
      .error "1080p resolution only supports 8 second duration"
    else
      .ok (warnings ++
        (if resolution = some "1080p" ∧ aspect_ratio = some "9:16" then [aspectWarning] else []))

/-! ## utils.generate_filename -/

/-- One pass of Python `str.replace`: replace non-overlapping occurrences of
`pat` left to right.  The extra `fuel` argument (always called with the
length of the text) keeps the recursion structural; when the pattern is a
prefix the scan jumps over the whole match. -/
def replAux (pat rep : List Char) : Nat → List Char → List Char
  | 0, s => s
  | _ + 1, [] => []
  | n + 1, c :: rest =>
    if pat.isPrefixOf (c :: rest) then
      rep ++ replAux pat rep n ((c :: rest).drop pat.length)
    else
      c :: replAux pat rep n rest

/-- Python `s.replace(pat, rep)` for a non-empty pattern (the only use in the
source); for an empty pattern the text is returned unchanged. -/
def pyReplace (s pat rep : String) : String :=
  if pat = "" then s else ⟨replAux pat.data rep.data s.data.length s.data⟩

/-- Python `extension.lstrip('.')`: drop leading dots. -/
def pyLstripDot (s : String) : String := ⟨s.data.dropWhile (· = '.')⟩

/-- The model-tag normalization inside `utils.generate_filename`
(utils.py line 50): strip `veo-`, `-generate`, `-preview`, dots to
underscores. -/
def modelClean (model : String) : String :=
  pyReplace (pyReplace (pyReplace (pyReplace model "veo-" "") "-generate" "") "-preview" "") "." "_"

/-- `utils.generate_filename` (utils.py lines 22-57).  `timestamp` is the
formatted `datetime.now()` string and `prompt_hash` the first 8 hex digits of
the md5 of the prompt, both produced outside the embedded logic and passed
in. -/
def generate_filename (timestamp prompt_hash : String)
    (prompt model : String) (extension : String) : Except Err String :=
  if prompt = "" then .error (.invalidParameter "Prompt must be a non-empty string")
  else if model = "" then .error (.invalidParameter "Model must be a non-empty string")
  else
    .ok (timestamp ++ "_" ++ modelClean model ++ "_" ++ prompt_hash ++ "." ++
      pyLstripDot extension)

/-! ## utils.get_output_path -/

/-- Split a list of characters at `/` separators. -/
def splitSlash : List Char → List (List Char)
  | [] => [[]]
  | c :: rest =>
    match splitSlash rest, c with
    | r, '/' => [] :: r
    | [], _ => [[c]]
    | h :: t, _ => (c :: h) :: t

/-- The components of `pathlib.Path(s)` (posix): split on `/`, drop empty
components and `.` components (`..` components are kept). -/
def pathParts (s : String) : List String :=
  ((splitSlash s.data).map (fun l => String.mk l)).filter
    (fun c => c != "" && c != ".")

/-- Python `Path(s).name`: last component, `""` when there is none. -/
def pyName (s : String) : String := (pathParts s).getLast?.getD ""

/-- `utils.get_output_path` (utils.py lines 63-84): reject a falsy filename,
take `Path(filename).name`, join with `OUTPUT_DIR`.  The result is the
component list of the produced path (joining an empty name leaves the
directory itself, as in pathlib). -/
def get_output_path (filename : String) : Except Err (List String) :=
  if filename = "" then .error (.invalidParameter "Filename must be a non-empty string")
  else
    let nm := pyName filename
    .ok (OUTPUT_DIR ++ (if nm = "" then [] else [nm]))

/-- Resolve `..` components against the preceding components (what the
filesystem does when the path is used). -/
def resolveDots (parts : List String) : List String :=
  parts.foldl (fun acc c => if c = ".." then acc.dropLast else acc ++ [c]) []

/-- A component list stays inside the output root iff its resolved form still
starts with the root directory. -/
def withinRoot (parts : List String) : Bool :=
  match resolveDots parts with
  | "output" :: _ => true
  | _ => false

/-! ## utils.poll_operation -/

/-- The remote operation handle: `done` flag and optional error payload
(the payload of a genuinely failed job is a non-empty provider status). -/
structure Operation where
  done : Bool
  error : Option String
deriving DecidableEq, Repr

inductive PollResult where
  | success (op : Operation) (refreshCalls : Nat)
  | timeout
  | remoteError (msg : String)
deriving DecidableEq, Repr

/-- The `while not operation.done` loop of `utils.poll_operation`
(utils.py lines 109-138), with the trailing error inspection.  `refresh i`
is the outcome of the `(i+1)`-th `client.operations.get` call (`.error` when
the status call itself raises).  `attempts` is the loop counter, which on
return equals the number of refresh calls performed.  The `time.sleep`
between polls has no observable effect in this model. -/
def pollGo (refresh : Nat → Except String Operation) (operation : Operation)
    (attempts : Nat) : PollResult :=
  if operation.done then
    match operation.error with
    | some e => .remoteError ("Video generation failed: " ++ e)
    | none => .success operation attempts
  else if MAX_POLL_ATTEMPTS ≤ attempts then .timeout
  else
    match refresh attempts with
    | .error e => .remoteError ("Failed to poll operation: " ++ e)
    | .ok op2 => pollGo refresh op2 (attempts + 1)
termination_by MAX_POLL_ATTEMPTS - attempts
decreasing_by simp_wf; omega

/-- `utils.poll_operation` entered with `attempts = 0`. -/
def poll_operation (refresh : Nat → Except String Operation)
    (operation : Operation) : PollResult :=
  pollGo refresh operation 0

/-! ## veo_generator.VeoVideoGenerator.generate_video (fragments) -/

structure EffectiveParams where
  model : String
  aspect_ratio : String
  resolution : String
  duration_seconds : Int
deriving DecidableEq, Repr

/-- The default application step of `generate_video`
(veo_generator.py lines 111-114): each field is `value or DEFAULT`. -/
def applyDefaults (model aspect_ratio resolution : Option String)
    (duration_seconds : Option Int) : EffectiveParams :=
  { model := pyOrStr model DEFAULT_MODEL
    aspect_ratio := pyOrStr aspect_ratio DEFAULT_ASPECT_RATIO
    resolution := pyOrStr resolution DEFAULT_RESOLUTION
    duration_seconds := pyOrInt duration_seconds DEFAULT_DURATION_SECONDS }

/-- An element of `operation.response.generated_videos`; its `video` field
(an opaque remote video reference, here an identifier) is what gets
downloaded or fed to the next extension step. -/
structure GeneratedVideo where
  video : Nat
deriving DecidableEq, Repr

/-- The result-validation step of `generate_video`
(veo_generator.py lines 158-162): a missing response or an empty
`generated_videos` list raises `RuntimeError`; otherwise the first video is
taken. -/
def checkGeneratedVideos (response : Option (List GeneratedVideo)) :
    Except Err GeneratedVideo :=
  match response with
  | none => .error (.remoteError "API did not return any generated videos")
  | some [] => .error (.remoteError "API did not return any generated videos")
  | some (v :: _) => .ok v

/-! ## veo_extension.VeoVideoExtension -/

/-- The per-scene `params` dict as it arrives at
`generate_scene(prompt=..., previous_video=..., **params)`: the keys
`model`, `aspect_ratio`, `resolution` bind to named parameters, while a
`duration_seconds` key lands in `**kwargs` (veo_extension.py line 199). -/
structure SceneParams where
  model : Option String := none
  aspect_ratio : Option String := none
  resolution : Option String := none
  kwargs_duration : Option Int := none
deriving DecidableEq, Repr

structure Scene where
  prompt : Option String := none
  params : SceneParams := {}
deriving DecidableEq, Repr

/-- The `types.GenerateVideosConfig` built by `generate_scene`
(veo_extension.py lines 111-118). -/
structure GenConfig where
  aspect_ratio : String
  resolution : String
  duration_seconds : Int
  number_of_videos : Nat
deriving DecidableEq, Repr

/-- One `client.models.generate_videos` submission: model, prompt, the
optional continuation-seed video, and the config
(veo_extension.py lines 121-133). -/
structure GenRequest where
  model : String
  prompt : String
  video : Option Nat
  config : GenConfig
deriving DecidableEq, Repr

/-- `VeoVideoExtension.generate_scene` (veo_extension.py lines 68-139).
`submitPoll req` abstracts `generate_videos` + `poll_operation` and yields
the completed operation's `response.generated_videos` list (or the raised
failure).  The first component of the result is the submitted request, when
submission was reached (validation failures happen before any remote call).
Note the order of operations from the source: after forcing
`resolution = "720p"` and `duration_seconds = 8` for an extension, the
config dict is built and then `config_params.update(kwargs)` re-applies any
`duration_seconds` entry of the per-scene kwargs. -/
def generate_scene (submitPoll : GenRequest → Except Err (List GeneratedVideo))
    (prompt : String) (previous_video : Option Nat) (p : SceneParams) :
    Option GenRequest × Except Err GeneratedVideo :=
  let model := pyOrStr p.model DEFAULT_MODEL
  let aspect_ratio := pyOrStr p.aspect_ratio DEFAULT_ASPECT_RATIO
  let resolution0 := pyOrStr p.resolution DEFAULT_RESOLUTION
  let resolution := if previous_video.isSome then "720p" else resolution0
  let duration_seconds : Int :=
    if previous_video.isSome then 8 else p.kwargs_duration.getD 8
  match validate_parameters (some aspect_ratio) (some resolution)
      (some duration_seconds) (some model) with
  | .error e => (none, .error (.invalidParameter e))
  | .ok _ =>
    let config : GenConfig :=
      { aspect_ratio := aspect_ratio
        resolution := resolution
        duration_seconds := p.kwargs_duration.getD duration_seconds
        number_of_videos := 1 }
    let req : GenRequest :=
      { model := model, prompt := prompt, video := previous_video, config := config }
    match submitPoll req with
    | .error e => (some req, .error e)
    | .ok [] => (some req, .error (.indexError "list index out of range"))
    | .ok (v :: _) => (some req, .ok v)

/-- The scene loop of `extend_from_scenes` (veo_extension.py lines 186-206).
`oracle i` is the remote behaviour of the `(i+1)`-th submit+poll cycle;
`trace` accumulates every submitted request.  `sceneNumber` is 1-based as in
the source. -/
def extendLoop (oracle : Nat → GenRequest → Except Err (List GeneratedVideo))
    (sceneNumber : Nat) (prev : Option GeneratedVideo) (trace : List GenRequest) :
    List Scene → List GenRequest × Except Err GeneratedVideo
  | [] =>
    match prev with
    | some v => (trace, .ok v)
    -- unreachable: `extend_from_scenes` only enters the loop with a
    -- non-empty scene list, and every completed iteration sets `prev`.
    | none => (trace, .error (.invalidParameter "At least one scene is required"))
  | scene :: rest =>
    if pyTruthyStr scene.prompt then
      let res := generate_scene (oracle (sceneNumber - 1)) (scene.prompt.getD "")
        ((prev.map (fun v => v.video))) scene.params
      let trace2 := trace ++ res.1.toList
      match res.2 with
      | .error e => (trace2, .error e)
      | .ok v => extendLoop oracle (sceneNumber + 1) (some v) trace2 rest
    else
      (trace, .error (.invalidParameter
        ("Scene " ++ toString sceneNumber ++ " is missing 'prompt' field")))

/-- `VeoVideoExtension.extend_from_scenes` (veo_extension.py lines 141-224)
up to the final download: precondition checks, then the sequential scene
loop.  Returns the full submission trace together with the final
`video_object` (whose `.video` is then downloaded once). -/
def extend_from_scenes (oracle : Nat → GenRequest → Except Err (List GeneratedVideo))
    (scenes : List Scene) : List GenRequest × Except Err GeneratedVideo :=
  if scenes.isEmpty then
    ([], .error (.invalidParameter "At least one scene is required"))
  else if MAX_EXTENSIONS + 1 < scenes.length then
    ([], .error (.invalidParameter
      ("Maximum " ++ toString (MAX_EXTENSIONS + 1) ++
       " scenes allowed (1 initial + " ++ toString MAX_EXTENSIONS ++ " extensions)")))
  else
    extendLoop oracle 1 none [] scenes

/-! ## Poller lemmas -/

lemma pollGo_done_none (refresh : Nat → Except String Operation) (op : Operation)
    (j : Nat) (h1 : op.done = true) (h2 : op.error = none) :
    pollGo refresh op j = .success op j := by
  unfold pollGo
  simp [h1, h2]

lemma pollGo_done_some (refresh : Nat → Except String Operation) (op : Operation)
    (j : Nat) (e : String) (h1 : op.done = true) (h2 : op.error = some e) :
    pollGo refresh op j = .remoteError ("Video generation failed: " ++ e) := by
  unfold pollGo
  simp [h1, h2]

lemma pollGo_timeout_at (refresh : Nat → Except String Operation) (op : Operation)
    (j : Nat) (h1 : op.done = false) (h2 : MAX_POLL_ATTEMPTS ≤ j) :
    pollGo refresh op j = .timeout := by
  unfold pollGo
  simp [h1, h2]

lemma pollGo_refresh_fault (refresh : Nat → Except String Operation) (op : Operation)
    (j : Nat) (e : String) (h1 : op.done = false) (h2 : j < MAX_POLL_ATTEMPTS)
    (h3 : refresh j = .error e) :
    pollGo refresh op j = .remoteError ("Failed to poll operation: " ++ e) := by
  unfold pollGo
  simp [h1, h2, Nat.not_le.mpr h2, h3]

lemma pollGo_step (refresh : Nat → Except String Operation) (op op2 : Operation)
    (j : Nat) (h1 : op.done = false) (h2 : j < MAX_POLL_ATTEMPTS)
    (h3 : refresh j = .ok op2) :
    pollGo refresh op j = pollGo refresh op2 (j + 1) := by
  conv_lhs => unfold pollGo
  simp [h1, Nat.not_le.mpr h2, h3]

/-- Success of the poll loop along a trajectory of refreshed handles:
entering at attempt counter `j` with a not-yet-done handle, when refreshes
`j, …, j+k-1` all succeed, the intermediate handles are not done, and the
`(j+k-1)`-th refreshed handle is done without error, the loop returns that
handle with counter `j + k`. -/
lemma pollGo_success_of_traj (refresh : Nat → Except String Operation)
    (traj : Nat → Operation) :
    ∀ k j op, op.done = false → 1 ≤ k → j + k ≤ MAX_POLL_ATTEMPTS →
    (∀ i, j ≤ i → i < j + k → refresh i = .ok (traj i)) →
    (∀ i, j ≤ i → i + 1 < j + k → (traj i).done = false) →
    (traj (j + k - 1)).done = true → (traj (j + k - 1)).error = none →
    pollGo refresh op j = .success (traj (j + k - 1)) (j + k) := by
  intro k
  induction k with
  | zero => omega
  | succ k ih =>
    intro j op hop hk hle hrefresh hnotdone hdone herr
    have hj : j < MAX_POLL_ATTEMPTS := by omega
    have hstep := pollGo_step refresh op (traj j) j hop hj
      (hrefresh j (Nat.le_refl j) (by omega))
    rw [hstep]
    by_cases hk0 : k = 0
    · subst hk0
      have e1 : j + (0 + 1) - 1 = j := by omega
      rw [e1] at hdone herr
      rw [pollGo_done_none refresh (traj j) (j + 1) hdone herr, e1]
    · have hdone2 : (traj j).done = false := hnotdone j (Nat.le_refl j) (by omega)
      have e1 : j + 1 + k - 1 = j + (k + 1) - 1 := by omega
      have e2 : j + 1 + k = j + (k + 1) := by omega
      have hrec := ih (j + 1) (traj j) hdone2 (by omega) (by omega)
        (fun i hi hi2 => hrefresh i (by omega) (by omega))
        (fun i hi hi2 => hnotdone i (by omega) (by omega))
        (by rw [e1]; exact hdone)
        (by rw [e1]; exact herr)
      rw [hrec, e1, e2]

/-- Timeout of the poll loop: if every refresh up to the attempt bound
succeeds but never yields a done handle, the loop times out. -/
lemma pollGo_timeout_of_never_done (refresh : Nat → Except String Operation) :
    ∀ n j op, MAX_POLL_ATTEMPTS - j = n → op.done = false →
    (∀ i, j ≤ i → i < MAX_POLL_ATTEMPTS → ∃ op2, refresh i = .ok op2 ∧ op2.done = false) →
    pollGo refresh op j = .timeout := by
  intro n
  induction n with
  | zero =>
    intro j op hn hop _
    exact pollGo_timeout_at refresh op j hop (by omega)
  | succ n ih =>
    intro j op hn hop hrefresh
    have hj : j < MAX_POLL_ATTEMPTS := by omega
    obtain ⟨op2, hok, hdone2⟩ := hrefresh j (Nat.le_refl j) hj
    rw [pollGo_step refresh op op2 j hop hj hok]
    exact ih (j + 1) op2 (by omega) hdone2
      (fun i hi hi2 => hrefresh i (by omega) hi2)

/-! ## Validator lemmas -/

/-- Any truthy (non-zero) duration outside the supported set makes
`validate_parameters` raise, whatever the other arguments are. -/
lemma validate_nonzero_bad_duration (a r m : Option String) (d : Int)
    (hd : d ≠ 0) (hmem : d ∉ SUPPORTED_DURATIONS) :
    ∃ e, validate_parameters a r (some d) m = .error e := by
  unfold validate_parameters
  split
  · exact ⟨_, rfl⟩
  · split
    · exact ⟨_, rfl⟩
    · rw [if_pos]
      · exact ⟨_, rfl⟩
      · exact ⟨by simp [pyTruthyInt, hd], by simpa using hmem⟩

/-! ## Claims -/

/-- C2 counterexample: with the default model `veo-3.1-generate-preview` the
normalized tag in the generated filename is `3_1`, not `3_1_generate`: the
`-generate` infix is stripped by `model.replace("-generate", "")` before the
`-preview` suffix is removed, so the produced name differs from the
`<timestamp>_3_1_generate_<hash>.mp4` shape the claim states. -/
theorem c2_default_model_tag_counterexample :
    generate_filename "20251012_120000" "0a1b2c3d" "A cinematic shot of a lion"
      "veo-3.1-generate-preview" "mp4" = .ok "20251012_120000_3_1_0a1b2c3d.mp4" ∧
    "20251012_120000_3_1_0a1b2c3d.mp4" ≠ "20251012_120000_3_1_generate_0a1b2c3d.mp4" := by
  decide

/-- C2 (amended): for any timestamp, hash and non-empty prompt, the
auto-generated filename for the default model is
`<timestamp>_3_1_<hash>.mp4` — the normalized model tag between the
timestamp and the hash segment is `3_1`. -/
theorem c2_default_model_tag_amended (timestamp prompt_hash prompt : String)
    (hp : prompt ≠ "") :
    generate_filename timestamp prompt_hash prompt "veo-3.1-generate-preview" "mp4" =
      .ok (timestamp ++ "_" ++ "3_1" ++ "_" ++ prompt_hash ++ "." ++ "mp4") := by
  unfold generate_filename
  rw [if_neg hp, if_neg (by decide)]
  have h1 : modelClean "veo-3.1-generate-preview" = "3_1" := by decide
  have h2 : pyLstripDot "mp4" = "mp4" := by decide
  rw [h1, h2]

theorem c2_default_model_tag_amended_witness :
    ("A cinematic shot of a lion" : String) ≠ "" ∧
    generate_filename "ts" "hash1234" "A cinematic shot of a lion"
      "veo-3.1-generate-preview" "mp4" =
      .ok ("ts" ++ "_" ++ "3_1" ++ "_" ++ "hash1234" ++ "." ++ "mp4") :=
  ⟨by decide, c2_default_model_tag_amended "ts" "hash1234" _ (by decide)⟩

/-- C3 counterexample: `duration_seconds = 0` is outside `{4, 6, 8}` but
`validate_parameters` succeeds on it, because `if duration_seconds and …`
treats the falsy value 0 as "not supplied". -/
theorem c3_zero_duration_counterexample :
    (0 : Int) ∉ SUPPORTED_DURATIONS ∧
    validate_parameters none none (some 0) none = .ok [] := by
  decide

/-- C3 (amended): every *non-zero* duration outside `{4, 6, 8}` (negative
values included) makes `validate_parameters` fail, whatever the other
arguments; a supplied 0 is falsy in Python and is treated as unset instead
of being rejected. -/
theorem c3_invalid_duration_amended (a r m : Option String) (d : Int)
    (hd : d ≠ 0) (hmem : d ∉ SUPPORTED_DURATIONS) :
    ∃ e, validate_parameters a r (some d) m = .error e :=
  validate_nonzero_bad_duration a r m d hd hmem

theorem c3_invalid_duration_amended_witness :
    ((-1 : Int) ≠ 0) ∧ ((-1 : Int) ∉ SUPPORTED_DURATIONS) ∧
    (∃ e, validate_parameters none none (some (-1)) none = .error e) :=
  ⟨by decide, by decide, c3_invalid_duration_amended none none none (-1) (by decide) (by decide)⟩

/-- C8: fatal rules versus advisories in `validate_parameters`: 1080p with a
truthy duration different from 8 raises; an unknown model merely yields the
soft model warning; 1080p with 9:16 merely yields the soft aspect
warning. -/
theorem c8_fatal_vs_advisory :
    (∀ d : Int, d ≠ 0 → d ≠ 8 →
      ∃ e, validate_parameters none (some "1080p") (some d) none = .error e) ∧
    validate_parameters none none none (some "unknown-model") =
      .ok [modelWarning "unknown-model"] ∧
    validate_parameters (some "9:16") (some "1080p") none none =
      .ok [aspectWarning] := by
  refine ⟨?_, by decide, by decide⟩
  intro d hd0 hd8
  by_cases hmem : d ∈ SUPPORTED_DURATIONS
  · have hcases : d = 4 ∨ d = 6 := by
      simp only [SUPPORTED_DURATIONS, List.mem_cons, List.mem_singleton,
        List.not_mem_nil, or_false] at hmem
      rcases hmem with h | h | h
      · exact Or.inl h
      · exact Or.inr h
      · exact absurd h hd8
    rcases hcases with h | h <;> subst h
    · exact ⟨"1080p resolution only supports 8 second duration", by decide⟩
    · exact ⟨"1080p resolution only supports 8 second duration", by decide⟩
  · exact validate_nonzero_bad_duration none (some "1080p") none d hd0 hmem

theorem c8_fatal_vs_advisory_witness :
    ((4 : Int) ≠ 0) ∧ ((4 : Int) ≠ 8) ∧
    (∃ e, validate_parameters none (some "1080p") (some 4) none = .error e) :=
  ⟨by decide, by decide, c8_fatal_vs_advisory.1 4 (by decide) (by decide)⟩

/-- C10: in `generate_video` the falsy values 0 (duration) and `""` (model,
aspect ratio, resolution) are replaced by the defaults exactly like `None`,
and the resulting all-default parameter set passes validation with no
warnings, so such a call never fails validation for those fields. -/
theorem c10_falsy_params_use_defaults :
    (∀ m a r : Option String, applyDefaults m a r (some 0) = applyDefaults m a r none) ∧
    (∀ (a r : Option String) (d : Option Int),
      applyDefaults (some "") a r d = applyDefaults none a r d) ∧
    (∀ (m r : Option String) (d : Option Int),
      applyDefaults m (some "") r d = applyDefaults m none r d) ∧
    (∀ (m a : Option String) (d : Option Int),
      applyDefaults m a (some "") d = applyDefaults m a none d) ∧
    applyDefaults (some "") (some "") (some "") (some 0) =
      { model := DEFAULT_MODEL, aspect_ratio := DEFAULT_ASPECT_RATIO,
        resolution := DEFAULT_RESOLUTION, duration_seconds := DEFAULT_DURATION_SECONDS } ∧
    validate_parameters (some DEFAULT_ASPECT_RATIO) (some DEFAULT_RESOLUTION)
      (some DEFAULT_DURATION_SECONDS) (some DEFAULT_MODEL) = .ok [] := by
  exact ⟨fun m a r => rfl, fun a r d => rfl, fun m r d => rfl, fun m a d => rfl,
    by decide, by decide⟩

/-- C5: `poll_operation` performs exactly one refresh per iteration of the
not-done loop.  First part: a handle that becomes done without error at the
`k`-th refresh (`k < 180`; `k = 0` means the initial handle is already done)
is returned as a success whose attempt counter — the number of refresh calls
made — is exactly `k`.  Second part: a handle that is still not done once
the counter reaches `MAX_POLL_ATTEMPTS = 180` makes the poll fail with
Timeout. -/
theorem c5_poll_refresh_count :
    (∀ (refresh : Nat → Except String Operation) (traj : Nat → Operation)
        (op : Operation) (k : Nat),
      k < MAX_POLL_ATTEMPTS →
      (k = 0 → op.done = true ∧ op.error = none) →
      (0 < k → op.done = false ∧
        (∀ i, i < k → refresh i = .ok (traj i)) ∧
        (∀ i, i + 1 < k → (traj i).done = false) ∧
        (traj (k - 1)).done = true ∧ (traj (k - 1)).error = none) →
      poll_operation refresh op = .success (if k = 0 then op else traj (k - 1)) k) ∧
    (∀ (refresh : Nat → Except String Operation) (op : Operation),
      op.done = false →
      (∀ i, i < MAX_POLL_ATTEMPTS → ∃ op2, refresh i = .ok op2 ∧ op2.done = false) →
      poll_operation refresh op = .timeout) := by
  constructor
  · intro refresh traj op k hk h0 hpos
    by_cases hk0 : k = 0
    · subst hk0
      obtain ⟨hd, he⟩ := h0 rfl
      rw [if_pos rfl]
      exact pollGo_done_none refresh op 0 hd he
    · obtain ⟨hop, hrefresh, hnotdone, hdone, herr⟩ := hpos (Nat.pos_of_ne_zero hk0)
      rw [if_neg hk0]
      have h := pollGo_success_of_traj refresh traj k 0 op hop
        (Nat.one_le_iff_ne_zero.mpr hk0) (by omega)
        (fun i _ hi2 => hrefresh i (by omega))
        (fun i _ hi2 => hnotdone i (by omega))
        (by rw [Nat.zero_add]; exact hdone)
        (by rw [Nat.zero_add]; exact herr)
      calc poll_operation refresh op = pollGo refresh op 0 := rfl
        _ = .success (traj (0 + k - 1)) (0 + k) := h
        _ = .success (traj (k - 1)) k := by rw [Nat.zero_add]
  · intro refresh op hop hrefresh
    exact pollGo_timeout_of_never_done refresh MAX_POLL_ATTEMPTS 0 op rfl hop
      (fun i _ hi2 => hrefresh i hi2)

theorem c5_poll_refresh_count_witness :
    poll_operation
        (fun i => if i = 1 then .ok ⟨true, none⟩ else .ok ⟨false, none⟩)
        ⟨false, none⟩ =
      .success (if (2 : Nat) = 0 then (⟨false, none⟩ : Operation)
        else (fun i => if i = 1 then (⟨true, none⟩ : Operation) else ⟨false, none⟩) (2 - 1)) 2 ∧
    poll_operation (fun _ => .ok ⟨false, none⟩) ⟨false, none⟩ = .timeout := by
  constructor
  · exact c5_poll_refresh_count.1
      (fun i => if i = 1 then .ok ⟨true, none⟩ else .ok ⟨false, none⟩)
      (fun i => if i = 1 then ⟨true, none⟩ else ⟨false, none⟩)
      ⟨false, none⟩ 2 (by decide)
      (fun h => absurd h (by decide))
      (fun _ => ⟨rfl, by decide,
        by intro i hi; have hi0 : i = 0 := (by omega); subst hi0; rfl,
        by decide, by decide⟩)
  · exact c5_poll_refresh_count.2 _ _ rfl (fun i _ => ⟨⟨false, none⟩, rfl, rfl⟩)

/-- C6: once a handle is done its error field decides the outcome — a
present error yields RemoteError carrying the provider payload, an absent
error returns the completed handle; and a fault raised by a status-refresh
call aborts the poll with RemoteError instead of being retried. -/
theorem c6_done_error_decides :
    (∀ (refresh : Nat → Except String Operation) (op : Operation) (j : Nat) (e : String),
      op.done = true → op.error = some e →
      pollGo refresh op j = .remoteError ("Video generation failed: " ++ e)) ∧
    (∀ (refresh : Nat → Except String Operation) (op : Operation) (j : Nat),
      op.done = true → op.error = none →
      pollGo refresh op j = .success op j) ∧
    (∀ (refresh : Nat → Except String Operation) (op : Operation) (j : Nat) (e : String),
      op.done = false → j < MAX_POLL_ATTEMPTS → refresh j = .error e →
      pollGo refresh op j = .remoteError ("Failed to poll operation: " ++ e)) :=
  ⟨fun refresh op j e h1 h2 => pollGo_done_some refresh op j e h1 h2,
   fun refresh op j h1 h2 => pollGo_done_none refresh op j h1 h2,
   fun refresh op j e h1 h2 h3 => pollGo_refresh_fault refresh op j e h1 h2 h3⟩

theorem c6_done_error_decides_witness :
    pollGo (fun _ => .ok ⟨false, none⟩) ⟨true, some "quota exceeded"⟩ 0 =
      .remoteError ("Video generation failed: " ++ "quota exceeded") ∧
    pollGo (fun _ => .ok ⟨false, none⟩) ⟨true, none⟩ 3 = .success ⟨true, none⟩ 3 ∧
    pollGo (fun _ => .error "connection reset") ⟨false, none⟩ 0 =
      .remoteError ("Failed to poll operation: " ++ "connection reset") :=
  ⟨c6_done_error_decides.1 _ _ 0 "quota exceeded" rfl rfl,
   c6_done_error_decides.2.1 _ _ 3 rfl rfl,
   c6_done_error_decides.2.2 _ _ 0 "connection reset" rfl (by decide) rfl⟩

/-- C9 counterexample: `get_output_path ".."` keeps `..` as the joined name
(`Path("..").name` is `".."` in pathlib), and the produced path
`output/..` resolves outside the output root — refuting "the result never
escapes the output root". -/
theorem c9_dotdot_escape_counterexample :
    get_output_path ".." = .ok ["output", ".."] ∧
    withinRoot ["output", ".."] = false := by
  decide

/-- C9 (amended): `get_output_path` joins the output root with only the
final path component of the supplied filename (directory components, `.`
segments and empty segments are discarded), and the result stays inside the
output root whenever that final component is not `..`; in particular
`get_output_path "../../etc/passwd"` is `output/passwd`, inside the root.
A filename whose final component is `..` (e.g. `".."`) is the one case that
still escapes. -/
theorem c9_basename_amended :
    (∀ fn : String, fn ≠ "" →
      get_output_path fn =
        .ok (OUTPUT_DIR ++ (if pyName fn = "" then [] else [pyName fn])) ∧
      (pyName fn ≠ ".." →
        withinRoot (OUTPUT_DIR ++ (if pyName fn = "" then [] else [pyName fn])) = true)) ∧
    (get_output_path "../../etc/passwd" = .ok ["output", "passwd"] ∧
      withinRoot ["output", "passwd"] = true) := by
  constructor
  · intro fn hfn
    constructor
    · unfold get_output_path
      rw [if_neg hfn]
    · intro hdd
      by_cases hnm : pyName fn = ""
      · rw [hnm]; decide
      · rw [if_neg hnm]
        show withinRoot (["output"] ++ [pyName fn]) = true
        unfold withinRoot resolveDots
        simp only [List.cons_append, List.nil_append, List.foldl_cons, List.foldl_nil]
        rw [if_neg (by decide : ¬(("output" : String) = ".."))]
        rw [if_neg hdd]
        rfl
  · constructor <;> decide

theorem c9_basename_amended_witness :
    get_output_path "subdir/video.mp4" =
      .ok (OUTPUT_DIR ++ (if pyName "subdir/video.mp4" = "" then []
        else [pyName "subdir/video.mp4"])) ∧
    withinRoot (OUTPUT_DIR ++ (if pyName "subdir/video.mp4" = "" then []
      else [pyName "subdir/video.mp4"])) = true :=
  ⟨(c9_basename_amended.1 "subdir/video.mp4" (by decide)).1,
   (c9_basename_amended.1 "subdir/video.mp4" (by decide)).2 (by decide)⟩

/-- C1 (code evaluated at the failing input): a two-scene chain whose second
scene carries the per-scene override `duration_seconds = 4`.  The first
scene is submitted without a seed at its own duration (8), and the second is
submitted with the first scene's artifact as seed at resolution 720p — but
its config carries `duration_seconds = 4`, not the forced 8: after
`generate_scene` forces `duration_seconds = 8` for an extension (and even
validates with 8), `config_params.update(kwargs)` re-applies the per-scene
override, contradicting the forcing the source's own comment states. -/
theorem c1_scene_chain_duration_override_trace :
    extend_from_scenes (fun i _ => .ok [⟨100 + i⟩])
      [{ prompt := some "scene one" },
       { prompt := some "scene two", params := { kwargs_duration := some 4 } }] =
    ([{ model := "veo-3.1-generate-preview", prompt := "scene one", video := none,
        config := { aspect_ratio := "16:9", resolution := "720p",
                    duration_seconds := 8, number_of_videos := 1 } },
      { model := "veo-3.1-generate-preview", prompt := "scene two", video := some 100,
        config := { aspect_ratio := "16:9", resolution := "720p",
                    duration_seconds := 4, number_of_videos := 1 } }],
     .ok ⟨101⟩) := by
  decide

/-- C4 counterexample: in a scene chain, a step whose successful poll
returns an empty `generated_videos` list fails through the bare indexing
`operation.response.generated_videos[0]` — an IndexError, not the
RemoteError ("no videos generated") check the claim says every scene step
runs. -/
theorem c4_scene_empty_result_counterexample :
    extend_from_scenes (fun _ _ => .ok []) [{ prompt := some "a lone scene" }] =
      ([{ model := "veo-3.1-generate-preview", prompt := "a lone scene", video := none,
          config := { aspect_ratio := "16:9", resolution := "720p",
                      duration_seconds := 8, number_of_videos := 1 } }],
       .error (.indexError "list index out of range")) ∧
    Err.isRemoteError (.indexError "list index out of range") = false := by
  decide

/-- C4 (amended): single-video generation does run the validate-result
check — a missing response or an empty `generated_videos` list raises
RemoteError ("no videos generated") and a non-empty list yields its first
artifact; a scene-chain step has no such explicit check and an empty list
raises an IndexError instead, which still aborts the chain before any
further scene is submitted: in a two-scene chain whose first step polls
successfully with an empty list, exactly one request is ever submitted even
though the second step's remote call would have succeeded. -/
theorem c4_empty_result_amended :
    checkGeneratedVideos none =
      .error (.remoteError "API did not return any generated videos") ∧
    checkGeneratedVideos (some []) =
      .error (.remoteError "API did not return any generated videos") ∧
    (∀ (v : GeneratedVideo) (vs : List GeneratedVideo),
      checkGeneratedVideos (some (v :: vs)) = .ok v) ∧
    extend_from_scenes (fun i _ => if i = 0 then .ok [] else .ok [⟨7⟩])
        [{ prompt := some "first scene" }, { prompt := some "second scene" }] =
      ([{ model := "veo-3.1-generate-preview", prompt := "first scene", video := none,
          config := { aspect_ratio := "16:9", resolution := "720p",
                      duration_seconds := 8, number_of_videos := 1 } }],
       .error (.indexError "list index out of range")) :=
  ⟨rfl, rfl, fun v vs => rfl, by decide⟩

/-- C7: `extend_from_scenes` checks its preconditions before any remote
call: an empty scene sequence fails with InvalidParameter, and any sequence
longer than `MAX_EXTENSIONS + 1 = 21` scenes fails with InvalidParameter
with an empty submission trace — zero remote submit or poll calls. -/
theorem c7_precondition_fail_fast :
    (∀ oracle : Nat → GenRequest → Except Err (List GeneratedVideo),
      extend_from_scenes oracle [] =
        ([], .error (.invalidParameter "At least one scene is required"))) ∧
    (∀ (oracle : Nat → GenRequest → Except Err (List GeneratedVideo))
        (scenes : List Scene),
      MAX_EXTENSIONS + 1 < scenes.length →
      extend_from_scenes oracle scenes =
        ([], .error (.invalidParameter
          ("Maximum " ++ toString (MAX_EXTENSIONS + 1) ++
           " scenes allowed (1 initial + " ++ toString MAX_EXTENSIONS ++ " extensions)")))) := by
  constructor
  · intro oracle
    rfl
  · intro oracle scenes h
    match scenes with
    | [] => exact absurd h (by decide)
    | s :: rest =>
      unfold extend_from_scenes
      rw [if_neg (by simp), if_pos h]

theorem c7_precondition_fail_fast_witness :
    MAX_EXTENSIONS + 1 < (List.replicate 22 ({ prompt := some "s" } : Scene)).length ∧
    extend_from_scenes (fun _ _ => .ok [⟨0⟩])
        (List.replicate 22 { prompt := some "s" }) =
      ([], .error (.invalidParameter
        ("Maximum " ++ toString (MAX_EXTENSIONS + 1) ++
         " scenes allowed (1 initial + " ++ toString MAX_EXTENSIONS ++ " extensions)"))) :=
  ⟨by decide,
   c7_precondition_fail_fast.2 (fun _ _ => .ok [⟨0⟩])
     (List.replicate 22 { prompt := some "s" }) (by decide)⟩

end VeoVerse
